import Mathlib

/-!
Verification development for the DCGAN training scripts `DCGAN.py` and
`nlzl16_generative_model.py`.

The repository trains a DCGAN: an alternating two-phase training loop over a
Generator and a Discriminator with independent Adam optimizers, followed by
latent-space interpolation, sample dumping and FID scoring.

Modelling choices (shallow embedding):

* Network parameters, gradient buffers and optimizer moment buffers are
  vectors `ℕ → α` over a linear ordered field `α` (instantiable at `ℚ`
  for concrete evaluation, or `ℝ`).
* Automatic differentiation is modelled first-order: a tensor in the
  autodiff graph is a `DVal`, carrying its value together with its total
  derivative (Jacobian row) with respect to the Generator parameters and
  with respect to the Discriminator parameters.  `torch.Tensor.detach`
  severs the graph, i.e. zeroes both derivative rows; `backward`
  accumulates the loss derivative rows into the `.grad` buffers, exactly
  as PyTorch accumulates `∂loss/∂p` into `p.grad` for every parameter `p`
  reachable in the graph of the loss.
* The convolutional networks themselves, the `BCELoss` criterion and the
  Adam optimizer are external library code (`torch.nn`, `torch.optim`),
  not part of the repository sources; they enter the model as opaque
  function fields of `Trainer` (value and derivative for the networks and
  the criterion, a parameter/moment update function for each optimizer).
  All theorems hold for every instantiation of these fields.
* The image batches supplied by the `DataLoader` and the Gaussian latent
  draws of `torch.randn` are abstracted to value streams `ℕ → α`, indexed
  by the draw counter; the RNG position is part of the training state.
-/

variable {α : Type} [LinearOrderedField α]

/-- Parameter / gradient / optimizer-moment vectors. -/
abbrev Vec (α : Type) := ℕ → α

/-- The all-zeroes vector (a freshly zeroed `.grad` buffer). -/
def vzero : Vec α := fun _ => 0

/-- Pointwise sum of two vectors (gradient accumulation). -/
def vadd (a b : Vec α) : Vec α := fun i => a i + b i

/-- Scalar multiple of a vector (chain rule through a scalar factor). -/
def smulV (c : α) (a : Vec α) : Vec α := fun i => c * a i

/-- Value in the autodiff graph: data plus its derivative rows with respect
to the Generator parameters (`dG`) and the Discriminator parameters (`dD`). -/
structure DVal (α : Type) where
  data : α
  dG : Vec α
  dD : Vec α

/-- A tensor with no autodiff history: a real-data batch loaded from the
`DataLoader` (leaf tensor, `requires_grad = False`). -/
def constT (x : α) : DVal α := ⟨x, vzero, vzero⟩

/-- Model of `torch.Tensor.detach`: same data, severed from the graph. -/
def detach (v : DVal α) : DVal α := ⟨v.data, vzero, vzero⟩

/-- Generator network as an opaque differentiable block: output value and
Jacobian row with respect to the Generator parameters, both functions of
(parameters, latent input).  The concrete stack of `ConvTranspose2d` /
`BatchNorm2d` / `ReLU` / `Tanh` layers is external `torch.nn` code. -/
structure GenNet (α : Type) where
  out : Vec α → α → α
  jac : Vec α → α → Vec α

/-- Discriminator network as an opaque differentiable block: output value,
Jacobian row with respect to its own parameters, and derivative with
respect to its image input (the path through which gradients flow back
into the Generator). -/
structure DiscNet (α : Type) where
  out : Vec α → α → α
  jacParams : Vec α → α → Vec α
  jacInput : Vec α → α → α

/-- The trainer's external collaborators: the two networks, the shared
`nn.BCELoss` criterion (value `crit` and derivative `critDeriv` in the
prediction argument), and the two `torch.optim.Adam` optimizers, each a
function of (its network's parameters, its network's gradient buffer, its
own moment state) returning updated parameters and moment state. -/
structure Trainer (α : Type) where
  G : GenNet α
  D : DiscNet α
  crit : α → α → α
  critDeriv : α → α → α
  optG : Vec α → Vec α → Vec α → Vec α × Vec α
  optD : Vec α → Vec α → Vec α → Vec α × Vec α

/-- Label smoothing constant from `params` in both scripts:
`real_label = 0.9`. -/
def real_label : α := 9 / 10

/-- Fake-image label from `params` in both scripts: `fake_label = 0`. -/
def fake_label : α := 0

/-- Forward pass of the Generator, `fake = netG(noise)`: the output is
attached to the Generator's graph (its `dG` row is the Generator's
Jacobian) and does not depend on the Discriminator's parameters. -/
def genForward (T : Trainer α) (p : Vec α) (z : α) : DVal α :=
  ⟨T.G.out p z, T.G.jac p z, vzero⟩

/-- Forward pass of the Discriminator, `output = netD(x)`: direct
dependence on the Discriminator's parameters plus the chain rule through
the input `x` (so a detached input contributes nothing to `dG`). -/
def discForward (T : Trainer α) (p : Vec α) (x : DVal α) : DVal α :=
  ⟨T.D.out p x.data,
   smulV (T.D.jacInput p x.data) x.dG,
   vadd (T.D.jacParams p x.data) (smulV (T.D.jacInput p x.data) x.dD)⟩

/-- The criterion `criterion(output, label)` applied to a graph value:
`nn.BCELoss` value and chain rule through the prediction argument. -/
def criterionApply (T : Trainer α) (o : DVal α) (label : α) : DVal α :=
  ⟨T.crit o.data label,
   smulV (T.critDeriv o.data label) o.dG,
   smulV (T.critDeriv o.data label) o.dD⟩

/-- Mutable training-core state: the two parameter vectors, the two
gradient buffers, the two Adam moment states, the RNG draw counter and the
`iters` step counter. -/
structure TrainCore (α : Type) where
  gParams : Vec α
  dParams : Vec α
  gGrad : Vec α
  dGrad : Vec α
  gOptSt : Vec α
  dOptSt : Vec α
  rng : ℕ
  iters : ℕ

/-- Model of `loss.backward()`: accumulate the derivative rows of the loss
into the gradient buffers of every parameter in its graph. -/
def backwardLoss (l : DVal α) (c : TrainCore α) : TrainCore α :=
  { c with gGrad := vadd c.gGrad l.dG, dGrad := vadd c.dGrad l.dD }

/-- Model of `netD.zero_grad()`. -/
def zeroGradD (c : TrainCore α) : TrainCore α := { c with dGrad := vzero }

/-- Model of `netG.zero_grad()`. -/
def zeroGradG (c : TrainCore α) : TrainCore α := { c with gGrad := vzero }

/-- Model of `optimizerD.step()`: the Discriminator optimizer reads the
Discriminator parameters, gradients and its own moments, and writes only
the Discriminator parameters and its own moments. -/
def optStepD (T : Trainer α) (c : TrainCore α) : TrainCore α :=
  let r := T.optD c.dParams c.dGrad c.dOptSt
  { c with dParams := r.1, dOptSt := r.2 }

/-- Model of `optimizerG.step()`. -/
def optStepG (T : Trainer α) (c : TrainCore α) : TrainCore α :=
  let r := T.optG c.gParams c.gGrad c.gOptSt
  { c with gParams := r.1, gOptSt := r.2 }

/-- Operations performed by one training step, in execution order; used to
state ordering claims about the protocol. -/
inductive TraceEv where
  | dZeroGrad
  | dForwardReal
  | dBackwardReal
  | genForwardNoise
  | dForwardFakeDetached
  | dBackwardFake
  | dOptStep
  | gZeroGrad
  | dForwardFakeAttached
  | gBackwardLoss
  | gOptStep
  deriving DecidableEq

/-- Phase D of one training step, translated line by line from
`DCGAN.py` lines 203-230 = `nlzl16_generative_model.py` lines 213-248:
zero D's gradients; forward the real batch and backward its loss against
`real_label`; draw noise and generate the fake batch; forward the detached
fake batch and backward its loss against `fake_label`; form
`errD = errD_real + errD_fake`; apply `optimizerD.step()`.  Returns the
updated core, the (attached) fake batch, the recorded `errD`, and the
trace of operations in the order the source performs them. -/
def phaseD (T : Trainer α) (data noise : α) (c : TrainCore α) :
    TrainCore α × DVal α × α × List TraceEv :=
  let c0 := zeroGradD c
  let outReal := discForward T c0.dParams (constT data)
  let errDReal := criterionApply T outReal real_label
  let c1 := backwardLoss errDReal c0
  let fake := genForward T c1.gParams noise
  let outFake := discForward T c1.dParams (detach fake)
  let errDFake := criterionApply T outFake fake_label
  let c2 := backwardLoss errDFake c1
  let errD := errDReal.data + errDFake.data
  let c3 := optStepD T c2
  (c3, fake, errD,
    [TraceEv.dZeroGrad, TraceEv.dForwardReal, TraceEv.dBackwardReal,
     TraceEv.genForwardNoise, TraceEv.dForwardFakeDetached,
     TraceEv.dBackwardFake, TraceEv.dOptStep])

/-- Phase G of one training step, translated from `DCGAN.py` lines
236-245 = `nlzl16_generative_model.py` lines 254-264: zero G's gradients;
forward the same (non-detached) fake batch through the Discriminator;
backward its loss against `real_label`; apply `optimizerG.step()`.
Returns the updated core, the recorded `errG`, and the operation trace. -/
def phaseG (T : Trainer α) (fake : DVal α) (c : TrainCore α) :
    TrainCore α × α × List TraceEv :=
  let c0 := zeroGradG c
  let outG := discForward T c0.dParams fake
  let errG := criterionApply T outG real_label
  let c1 := backwardLoss errG c0
  let c2 := optStepG T c1
  (c2, errG.data,
    [TraceEv.gZeroGrad, TraceEv.dForwardFakeAttached,
     TraceEv.gBackwardLoss, TraceEv.gOptStep])

/-- One full training step on the core state: Phase D followed by Phase G,
where Phase G consumes the core left by Phase D (after `optimizerD.step()`)
and the very fake batch produced inside Phase D.  Returns the new core,
`errD`, `errG` and the concatenated operation trace. -/
def coreStep (T : Trainer α) (data noise : α) (c : TrainCore α) :
    TrainCore α × α × α × List TraceEv :=
  let r := phaseD T data noise c
  let s := phaseG T r.2.1 r.1
  (s.1, r.2.2.1, s.2.1, r.2.2.2 ++ s.2.2)

/-- Full per-run training state: the core plus the append-only progress
lists `G_losses`, `D_losses` and `img_list`. -/
structure TrainState (α : Type) where
  core : TrainCore α
  gLosses : List α
  dLosses : List α
  imgList : List α

/-- Run configuration: the trainer collaborators, the real-batch stream
supplied by the `DataLoader` (indexed by the pull counter), the
`torch.randn` latent stream (indexed by the RNG draw counter), the
`fixed_noise` batch drawn at setup, and the budget hyperparameters:
`n_epochs` and `len(train_loader)` for `DCGAN.py`, `params['step']` for
`nlzl16_generative_model.py`. -/
structure TrainConfig (α : Type) where
  T : Trainer α
  dataS : ℕ → α
  noiseS : ℕ → α
  fixedNoise : α
  nEpochs : ℕ
  loaderLen : ℕ
  target : ℕ

/-- The loop body shared by both scripts apart from `DCGAN.py`'s terminal
snapshot: pull the next real batch, draw noise, run one full training step
(Phase D then Phase G), append `errG` to `G_losses` and `errD` to
`D_losses`, advance the RNG counter and `iters`. -/
def stepState (cfg : TrainConfig α) (st : TrainState α) : TrainState α :=
  let r := coreStep cfg.T (cfg.dataS st.core.iters) (cfg.noiseS st.core.rng) st.core
  { core := { r.1 with rng := st.core.rng + 1, iters := st.core.iters + 1 },
    gLosses := st.gLosses ++ [r.2.2.1],
    dLosses := st.dLosses ++ [r.2.1],
    imgList := st.imgList }

/-- Loop body of `DCGAN.py` (lines 196-262) at epoch `epoch`, inner index
`i`: one training step, then the visualisation snapshot
`if (epoch + 1 == n_epochs) and (i == len(train_loader) - 1)`, which
appends `netG(fixed_noise)` (evaluated at the post-step Generator
parameters) to `img_list`.  The comparison is over `ℤ` because Python's
`len(train_loader) - 1` may be `-1`. -/
def dcganBody (cfg : TrainConfig α) (epoch i : ℕ) (st : TrainState α) : TrainState α :=
  let st1 := stepState cfg st
  if epoch + 1 = cfg.nEpochs ∧ (i : ℤ) = (cfg.loaderLen : ℤ) - 1 then
    { st1 with imgList := st1.imgList ++ [cfg.T.G.out st1.core.gParams cfg.fixedNoise] }
  else st1

/-- Iterate a body over the Python range `i, i+1, ..., i+n-1` in order:
the model of `for i in range(n)` loops. -/
def upFold {σ : Type} (f : ℕ → σ → σ) (i : ℕ) : ℕ → σ → σ
  | 0, st => st
  | n + 1, st => upFold f (i + 1) n (f i st)

/-- One epoch of `DCGAN.py`: `for i in range(1000)`. -/
def dcganEpoch (cfg : TrainConfig α) (epoch : ℕ) (st : TrainState α) : TrainState α :=
  upFold (dcganBody cfg epoch) 0 1000 st

/-- The full training loop of `DCGAN.py` (lines 195-262):
`for epoch in range(params['n_epochs']): for i in range(1000): ...`. -/
def dcganRun (cfg : TrainConfig α) (st : TrainState α) : TrainState α :=
  upFold (fun epoch st2 => dcganEpoch cfg epoch st2) 0 cfg.nEpochs st

/-- The inner `for i, data in enumerate(train_loader)` loop of
`nlzl16_generative_model.py` (lines 204-282) over one pass of the loader
(`b` batches remaining): each iteration first checks
`if iters >= params['step']: break`, then performs one training step. -/
def nlzlInnerFor (cfg : TrainConfig α) : ℕ → TrainState α → TrainState α
  | 0, st => st
  | b + 1, st =>
    if st.core.iters < cfg.target then nlzlInnerFor cfg b (stepState cfg st)
    else st

/-- Each training step advances `iters` by exactly one. -/
lemma stepState_iters (cfg : TrainConfig α) (st : TrainState α) :
    (stepState cfg st).core.iters = st.core.iters + 1 := rfl

/-- The inner loop never decreases `iters`. -/
lemma nlzlInnerFor_iters_le (cfg : TrainConfig α) :
    ∀ (b : ℕ) (st : TrainState α), st.core.iters ≤ (nlzlInnerFor cfg b st).core.iters := by
  intro b
  induction b with
  | zero => intro st; exact le_refl _
  | succ b ih =>
    intro st
    by_cases h : st.core.iters < cfg.target
    · calc st.core.iters ≤ (stepState cfg st).core.iters := by
            rw [stepState_iters]; exact Nat.le_succ _
        _ ≤ (nlzlInnerFor cfg b (stepState cfg st)).core.iters := ih _
        _ = (nlzlInnerFor cfg (b + 1) st).core.iters := by
            rw [nlzlInnerFor, if_pos h]
    · rw [nlzlInnerFor, if_neg h]

/-- A nonempty pass of the inner loop strictly advances `iters` whenever
the target has not yet been reached. -/
lemma nlzlInnerFor_iters_lt (cfg : TrainConfig α) (b : ℕ) (hb : 1 ≤ b)
    (st : TrainState α) (h : st.core.iters < cfg.target) :
    st.core.iters < (nlzlInnerFor cfg b st).core.iters := by
  obtain ⟨b, rfl⟩ := Nat.exists_eq_add_of_le hb
  rw [Nat.add_comm, nlzlInnerFor, if_pos h]
  calc st.core.iters < (stepState cfg st).core.iters := by
        rw [stepState_iters]; exact Nat.lt_succ_self _
    _ ≤ _ := nlzlInnerFor_iters_le cfg b _

/-- The outer `while iters < params['step']` loop of
`nlzl16_generative_model.py` (line 203): repeat full passes of the loader
until the step target is reached.  Termination requires a nonempty
loader (`1 ≤ loaderLen`), which holds for CIFAR-100. -/
def nlzlRun (cfg : TrainConfig α) (hL : 1 ≤ cfg.loaderLen) (st : TrainState α) :
    TrainState α :=
  if h : st.core.iters < cfg.target then
    nlzlRun cfg hL (nlzlInnerFor cfg cfg.loaderLen st)
  else st
termination_by cfg.target - st.core.iters
decreasing_by
  exact Nat.sub_lt_sub_left h (nlzlInnerFor_iters_lt cfg cfg.loaderLen hL st h)

@[simp] lemma vadd_vzero (a : Vec α) : vadd a vzero = a := by
  funext i; simp [vadd, vzero]

@[simp] lemma vzero_vadd (a : Vec α) : vadd vzero a = a := by
  funext i; simp [vadd, vzero]

@[simp] lemma smulV_vzero (c : α) : smulV c (vzero : Vec α) = vzero := by
  funext i; simp [smulV, vzero]

/-- Core-state effect of one full training step, as a function of the core
alone (the streams are read at the core's counters). -/
def coreAdvance (cfg : TrainConfig α) (c : TrainCore α) : TrainCore α :=
  { (coreStep cfg.T (cfg.dataS c.iters) (cfg.noiseS c.rng) c).1 with
    rng := c.rng + 1, iters := c.iters + 1 }

/-- The `errG` value recorded by a step starting from core `c`. -/
def lossGAt (cfg : TrainConfig α) (c : TrainCore α) : α :=
  (coreStep cfg.T (cfg.dataS c.iters) (cfg.noiseS c.rng) c).2.2.1

/-- The `errD` value recorded by a step starting from core `c`. -/
def lossDAt (cfg : TrainConfig α) (c : TrainCore α) : α :=
  (coreStep cfg.T (cfg.dataS c.iters) (cfg.noiseS c.rng) c).2.1

lemma stepState_eq (cfg : TrainConfig α) (st : TrainState α) :
    stepState cfg st =
      ⟨coreAdvance cfg st.core, st.gLosses ++ [lossGAt cfg st.core],
       st.dLosses ++ [lossDAt cfg st.core], st.imgList⟩ := rfl

/-- The sequence of `errG` values produced by `n` consecutive steps. -/
def lossesG (cfg : TrainConfig α) : ℕ → TrainCore α → List α
  | 0, _ => []
  | n + 1, c => lossGAt cfg c :: lossesG cfg n (coreAdvance cfg c)

/-- The sequence of `errD` values produced by `n` consecutive steps. -/
def lossesD (cfg : TrainConfig α) : ℕ → TrainCore α → List α
  | 0, _ => []
  | n + 1, c => lossDAt cfg c :: lossesD cfg n (coreAdvance cfg c)

@[simp] lemma lossesG_length (cfg : TrainConfig α) :
    ∀ (n : ℕ) (c : TrainCore α), (lossesG cfg n c).length = n := by
  intro n
  induction n with
  | zero => intro c; rfl
  | succ n ih => intro c; simp [lossesG, ih]

@[simp] lemma lossesD_length (cfg : TrainConfig α) :
    ∀ (n : ℕ) (c : TrainCore α), (lossesD cfg n c).length = n := by
  intro n
  induction n with
  | zero => intro c; rfl
  | succ n ih => intro c; simp [lossesD, ih]

lemma lossesG_add (cfg : TrainConfig α) :
    ∀ (m n : ℕ) (c : TrainCore α),
      lossesG cfg (m + n) c =
        lossesG cfg m c ++ lossesG cfg n ((coreAdvance cfg)^[m] c) := by
  intro m
  induction m with
  | zero => intro n c; simp [lossesG]
  | succ m ih =>
    intro n c
    have : m + 1 + n = (m + n) + 1 := by omega
    rw [this]
    simp only [lossesG, ih n (coreAdvance cfg c), List.cons_append,
      Function.iterate_succ_apply]

lemma lossesD_add (cfg : TrainConfig α) :
    ∀ (m n : ℕ) (c : TrainCore α),
      lossesD cfg (m + n) c =
        lossesD cfg m c ++ lossesD cfg n ((coreAdvance cfg)^[m] c) := by
  intro m
  induction m with
  | zero => intro n c; simp [lossesD]
  | succ m ih =>
    intro n c
    have : m + 1 + n = (m + n) + 1 := by omega
    rw [this]
    simp only [lossesD, ih n (coreAdvance cfg c), List.cons_append,
      Function.iterate_succ_apply]

lemma iterate_stepState_char (cfg : TrainConfig α) :
    ∀ (n : ℕ) (st : TrainState α),
      (stepState cfg)^[n] st =
        ⟨(coreAdvance cfg)^[n] st.core, st.gLosses ++ lossesG cfg n st.core,
         st.dLosses ++ lossesD cfg n st.core, st.imgList⟩ := by
  intro n
  induction n with
  | zero => intro st; simp [lossesG, lossesD]
  | succ n ih =>
    intro st
    rw [Function.iterate_succ_apply, Function.iterate_succ_apply, ih,
      stepState_eq]
    simp [lossesG, lossesD]

lemma coreAdvance_iters (cfg : TrainConfig α) (c : TrainCore α) :
    (coreAdvance cfg c).iters = c.iters + 1 := rfl

lemma iterate_coreAdvance_iters (cfg : TrainConfig α) :
    ∀ (n : ℕ) (c : TrainCore α), ((coreAdvance cfg)^[n] c).iters = c.iters + n := by
  intro n
  induction n with
  | zero => intro c; rfl
  | succ n ih =>
    intro c
    rw [Function.iterate_succ_apply, ih, coreAdvance_iters]
    omega

lemma dcganBody_eq (cfg : TrainConfig α) (epoch i : ℕ) (st : TrainState α) :
    dcganBody cfg epoch i st =
      ⟨coreAdvance cfg st.core, st.gLosses ++ [lossGAt cfg st.core],
       st.dLosses ++ [lossDAt cfg st.core],
       if epoch + 1 = cfg.nEpochs ∧ (i : ℤ) = (cfg.loaderLen : ℤ) - 1 then
         st.imgList ++
           [cfg.T.G.out (coreAdvance cfg st.core).gParams cfg.fixedNoise]
       else st.imgList⟩ := by
  simp only [dcganBody, stepState_eq]
  split <;> rfl

lemma upFold_dcgan_char (cfg : TrainConfig α) (epoch : ℕ) :
    ∀ (n i : ℕ) (st : TrainState α),
      ((upFold (dcganBody cfg epoch) i n st).core =
          (coreAdvance cfg)^[n] st.core) ∧
      ((upFold (dcganBody cfg epoch) i n st).gLosses =
          st.gLosses ++ lossesG cfg n st.core) ∧
      ((upFold (dcganBody cfg epoch) i n st).dLosses =
          st.dLosses ++ lossesD cfg n st.core) := by
  intro n
  induction n with
  | zero => intro i st; simp [upFold, lossesG, lossesD]
  | succ n ih =>
    intro i st
    have hb := dcganBody_eq cfg epoch i st
    rw [upFold]
    obtain ⟨h1, h2, h3⟩ := ih (i + 1) (dcganBody cfg epoch i st)
    refine ⟨?_, ?_, ?_⟩
    · rw [h1, hb, Function.iterate_succ_apply]
    · rw [h2, hb]
      simp [lossesG, Function.iterate_succ_apply]
    · rw [h3, hb]
      simp [lossesD, Function.iterate_succ_apply]

lemma dcganEpoch_char (cfg : TrainConfig α) (epoch : ℕ) (st : TrainState α) :
    ((dcganEpoch cfg epoch st).core = (coreAdvance cfg)^[1000] st.core) ∧
    ((dcganEpoch cfg epoch st).gLosses = st.gLosses ++ lossesG cfg 1000 st.core) ∧
    ((dcganEpoch cfg epoch st).dLosses = st.dLosses ++ lossesD cfg 1000 st.core) :=
  upFold_dcgan_char cfg epoch 1000 0 st

lemma upFold_epochs_char (cfg : TrainConfig α) :
    ∀ (k e0 : ℕ) (st : TrainState α),
      ((upFold (fun epoch st2 => dcganEpoch cfg epoch st2) e0 k st).core =
          (coreAdvance cfg)^[k * 1000] st.core) ∧
      ((upFold (fun epoch st2 => dcganEpoch cfg epoch st2) e0 k st).gLosses =
          st.gLosses ++ lossesG cfg (k * 1000) st.core) ∧
      ((upFold (fun epoch st2 => dcganEpoch cfg epoch st2) e0 k st).dLosses =
          st.dLosses ++ lossesD cfg (k * 1000) st.core) := by
  intro k
  induction k with
  | zero => intro e0 st; simp [upFold, lossesG, lossesD]
  | succ k ih =>
    intro e0 st
    rw [upFold]
    obtain ⟨e1, e2, e3⟩ := dcganEpoch_char cfg e0 st
    obtain ⟨h1, h2, h3⟩ := ih (e0 + 1) (dcganEpoch cfg e0 st)
    have hmul : (k + 1) * 1000 = 1000 + k * 1000 := by ring
    refine ⟨?_, ?_, ?_⟩
    · rw [h1, e1, ← Function.iterate_add_apply, hmul, Nat.add_comm (k * 1000) 1000]
    · rw [h2, e2, hmul, lossesG_add cfg 1000 (k * 1000) st.core, e1,
        List.append_assoc]
    · rw [h3, e3, hmul, lossesD_add cfg 1000 (k * 1000) st.core, e1,
        List.append_assoc]

lemma dcganRun_char (cfg : TrainConfig α) (st : TrainState α) :
    ((dcganRun cfg st).core = (coreAdvance cfg)^[cfg.nEpochs * 1000] st.core) ∧
    ((dcganRun cfg st).gLosses =
        st.gLosses ++ lossesG cfg (cfg.nEpochs * 1000) st.core) ∧
    ((dcganRun cfg st).dLosses =
        st.dLosses ++ lossesD cfg (cfg.nEpochs * 1000) st.core) :=
  upFold_epochs_char cfg cfg.nEpochs 0 st

lemma iterate_stepState_iters (cfg : TrainConfig α) (n : ℕ) (st : TrainState α) :
    ((stepState cfg)^[n] st).core.iters = st.core.iters + n := by
  rw [iterate_stepState_char]
  exact iterate_coreAdvance_iters cfg n st.core

lemma nlzlInnerFor_eq_iterate (cfg : TrainConfig α) :
    ∀ (b : ℕ) (st : TrainState α),
      nlzlInnerFor cfg b st =
        (stepState cfg)^[min b (cfg.target - st.core.iters)] st := by
  intro b
  induction b with
  | zero => intro st; simp [nlzlInnerFor]
  | succ b ih =>
    intro st
    by_cases h : st.core.iters < cfg.target
    · rw [nlzlInnerFor, if_pos h, ih (stepState cfg st)]
      have h2 : min (b + 1) (cfg.target - st.core.iters) =
          (min b (cfg.target - (stepState cfg st).core.iters)) + 1 := by
        rw [stepState_iters]; omega
      rw [h2, Function.iterate_succ_apply]
    · rw [nlzlInnerFor, if_neg h]
      have h0 : cfg.target - st.core.iters = 0 := by omega
      rw [h0]
      simp

lemma nlzlRun_eq_iterate (cfg : TrainConfig α) (hL : 1 ≤ cfg.loaderLen) :
    ∀ (st : TrainState α),
      nlzlRun cfg hL st = (stepState cfg)^[cfg.target - st.core.iters] st := by
  intro st
  generalize hn : cfg.target - st.core.iters = n
  induction n using Nat.strong_induction_on generalizing st with
  | _ n ih =>
    rw [nlzlRun]
    by_cases h : st.core.iters < cfg.target
    · rw [dif_pos h]
      set st2 := nlzlInnerFor cfg cfg.loaderLen st with hst2
      have hk : st2 = (stepState cfg)^[min cfg.loaderLen (cfg.target - st.core.iters)] st :=
        nlzlInnerFor_eq_iterate cfg cfg.loaderLen st
      set k := min cfg.loaderLen (cfg.target - st.core.iters) with hkdef
      have hk_le : k ≤ cfg.target - st.core.iters := Nat.min_le_right _ _
      have hk_pos : 1 ≤ k := by
        have : 1 ≤ cfg.target - st.core.iters := by omega
        omega
      have hit : st2.core.iters = st.core.iters + k := by
        rw [hk, iterate_stepState_iters]
      have hm : cfg.target - st2.core.iters = n - k := by
        rw [hit]; omega
      have hlt : n - k < n := by omega
      rw [ih (n - k) hlt st2 hm, hk, ← Function.iterate_add_apply]
      have : n - k + k = n := by omega
      rw [this]
    · rw [dif_neg h]
      have : n = 0 := by omega
      rw [this]
      simp

lemma dcganBody_imgList (cfg : TrainConfig α) (epoch i : ℕ) (st : TrainState α) :
    (dcganBody cfg epoch i st).imgList =
      if epoch + 1 = cfg.nEpochs ∧ (i : ℤ) = (cfg.loaderLen : ℤ) - 1 then
        st.imgList ++ [cfg.T.G.out (coreAdvance cfg st.core).gParams cfg.fixedNoise]
      else st.imgList := by
  rw [dcganBody_eq]

lemma dcganBody_imgList_ne (cfg : TrainConfig α) (epoch i : ℕ) (st : TrainState α)
    (h : st.imgList ≠ []) : (dcganBody cfg epoch i st).imgList ≠ [] := by
  rw [dcganBody_imgList]
  split
  · simp
  · exact h

lemma upFold_dcgan_imgList_ne (cfg : TrainConfig α) (epoch : ℕ) :
    ∀ (n i : ℕ) (st : TrainState α), st.imgList ≠ [] →
      (upFold (dcganBody cfg epoch) i n st).imgList ≠ [] := by
  intro n
  induction n with
  | zero => intro i st h; exact h
  | succ n ih =>
    intro i st h
    rw [upFold]
    exact ih (i + 1) _ (dcganBody_imgList_ne cfg epoch i st h)

lemma upFold_split {σ : Type} (f : ℕ → σ → σ) :
    ∀ (m n i : ℕ) (st : σ),
      upFold f i (m + n) st = upFold f (i + m) n (upFold f i m st) := by
  intro m
  induction m with
  | zero => intro n i st; simp [upFold]
  | succ m ih =>
    intro n i st
    have h1 : m + 1 + n = m + n + 1 := by omega
    have h2 : i + 1 + m = i + (m + 1) := by omega
    simp only [h1, upFold]
    rw [ih n (i + 1) (f i st), h2]

lemma dcganEpoch_imgList_ne (cfg : TrainConfig α) (epoch : ℕ) (st : TrainState α)
    (he : epoch + 1 = cfg.nEpochs) (hL1 : 1 ≤ cfg.loaderLen)
    (hL2 : cfg.loaderLen ≤ 1000) : (dcganEpoch cfg epoch st).imgList ≠ [] := by
  have hsplit : (1000 : ℕ) = (cfg.loaderLen - 1) + ((1000 - cfg.loaderLen) + 1) := by
    omega
  rw [dcganEpoch, hsplit, upFold_split]
  simp only [upFold]
  apply upFold_dcgan_imgList_ne
  rw [dcganBody_imgList, if_pos]
  · simp
  · refine ⟨he, ?_⟩
    omega

lemma dcganRun_imgList_ne (cfg : TrainConfig α) (st : TrainState α)
    (hE : 1 ≤ cfg.nEpochs) (hL1 : 1 ≤ cfg.loaderLen) (hL2 : cfg.loaderLen ≤ 1000) :
    (dcganRun cfg st).imgList ≠ [] := by
  have hsplit : cfg.nEpochs = (cfg.nEpochs - 1) + 1 := by omega
  rw [dcganRun, hsplit, upFold_split]
  simp only [upFold]
  apply dcganEpoch_imgList_ne cfg _ _ _ hL1 hL2
  omega

/-- Number of epochs configured in `DCGAN.py`: `params['n_epochs'] = 50`. -/
def dcgan_n_epochs : ℕ := 50

/-- Batch size configured in `DCGAN.py`: `params['batch_size'] = 128`. -/
def dcgan_batch_size : ℕ := 128

/-- Size of the CIFAR-100 training split loaded by both scripts. -/
def cifar100_train_size : ℕ := 50000

/-- Length of `train_loader` in `DCGAN.py`: `DataLoader` with default
`drop_last=False` has `ceil(dataset_size / batch_size)` batches. -/
def dcgan_loader_len : ℕ :=
  (cifar100_train_size + dcgan_batch_size - 1) / dcgan_batch_size

/-- Output (channels, spatial size) of a `nn.ConvTranspose2d(cin, cout, k, s, p)`
layer on a square input: PyTorch computes
`H_out = (H_in - 1) * stride - 2 * padding + dilation * (kernel - 1) + output_padding + 1`
with `dilation = 1` and `output_padding = 0`, i.e. `(H_in - 1) * s - 2 * p + k`. -/
def convTranspose2d (io : ℕ × ℤ) (cout : ℕ) (k s p : ℤ) : ℕ × ℤ :=
  (cout, (io.2 - 1) * s - 2 * p + k)

/-- Output (channels, spatial size) of the Generator of `DCGAN.py`
(lines 61-76) on a latent input of shape `nz × 1 × 1`, with
`nz = 100`, `ngf = 64`, `nc = 3`: five transposed convolutions
`(3,1,0), (3,2,1), (3,2,1), (3,2,1), (3,2,1)`. -/
def dcganGenOut : ℕ × ℤ :=
  convTranspose2d
    (convTranspose2d
      (convTranspose2d
        (convTranspose2d
          (convTranspose2d (100, 1) 128 3 1 0)
          128 3 2 1)
        128 3 2 1)
      64 3 2 1)
    3 3 2 1

/-- Output (channels, spatial size) of the Generator of
`nlzl16_generative_model.py` (lines 59-67) on a latent input of shape
`nz × 1 × 1`, with `nz = 128`, `ngf = 64`, `nc = 3`: one transposed
convolution `(3,1,0)`, three `(3,2,1)` layers, and a final `(4,2,2)`
layer. -/
def nlzlGenOut : ℕ × ℤ :=
  convTranspose2d
    (convTranspose2d
      (convTranspose2d
        (convTranspose2d
          (convTranspose2d (128, 1) 128 3 1 0)
          128 3 2 1)
        128 3 2 1)
      128 3 2 1)
    3 4 2 2

/-- The final activation of both Generators is `nn.Tanh()`
(`DCGAN.py` line 75, `nlzl16_generative_model.py` line 66), applied
elementwise to the last transposed convolution's output. -/
noncomputable def generatorFinalAct : ℝ → ℝ := Real.tanh

lemma tanh_le_one (x : ℝ) : Real.tanh x ≤ 1 := by
  rw [Real.tanh_eq_sinh_div_cosh]
  exact le_of_lt ((div_lt_one (Real.cosh_pos x)).mpr (Real.sinh_lt_cosh x))

lemma neg_one_le_tanh (x : ℝ) : -1 ≤ Real.tanh x := by
  have h := tanh_le_one (-x)
  rw [Real.tanh_neg] at h
  linarith

/-- Entry `i` of `torch.linspace(0, 1, steps)`:
`0 + i * (1 - 0) / (steps - 1) = i / (steps - 1)`. -/
def linspace01 (steps i : ℕ) : α := (i : α) / ((steps : α) - 1)

/-- Entry `m` of the interpolation-fraction tensor `t` of
`nlzl16_generative_model.py` (lines 295-296):
`linspace(0, 1, col_size).unsqueeze(1).repeat(1, col_size)` followed by
the flattening `view(batch_size, 1, 1, 1)` (valid there since
`col_size² = batch_size`), so row `m` of the flattened batch carries
fraction number `m / col_size`.  The corresponding `DCGAN.py` line 275
is not modelled: its `view(batch_size, 1)` of the `col_size² = 121`-entry
tensor to 128 entries is invalid (see `viewNumel`), and control never
reaches it because line 272 already raises (see `repeatDims`). -/
def tEntry (col m : ℕ) : α := linspace01 col (m / col)

/-- Coordinate `c` of latent row `m` of
`z0 = sample_noise[0:col_size].repeat(col_size, 1, 1, 1)` in
`nlzl16_generative_model.py` (line 292): the first `col_size` sampled
latents tiled, so row `m` is sample row `m % col_size`.  The
corresponding `DCGAN.py` line 272 is not modelled: there
`.repeat(col_size, 1)` passes 2 sizes for the 4-dimensional slice and
raises (see `repeatDims`). -/
def z0row (sample : ℕ → ℕ → α) (col m c : ℕ) : α := sample (m % col) c

/-- Coordinate `c` of latent row `m` of
`z1 = sample_noise[batch_size - col_size:].repeat(col_size, 1, 1, 1)` in
`nlzl16_generative_model.py` (line 293): the last `col_size` of the
`batch_size` sampled latents tiled.  The corresponding `DCGAN.py` line
273 is not modelled: its slice of the 10000-row `sample_noise` keeps
9883 rows and its `.repeat(col_size, 1)` raises (see `repeatDims`). -/
def z1row (sample : ℕ → ℕ → α) (batch col m c : ℕ) : α :=
  sample (batch - col + m % col) c

/-- Coordinate `c` of latent row `m` of
`lerp_z = (1 - t) * z0 + t * z1` in `nlzl16_generative_model.py`
(line 297). -/
def lerpZ (sample : ℕ → ℕ → α) (batch col m c : ℕ) : α :=
  (1 - tEntry col m) * z0row sample col m c + tEntry col m * z1row sample batch col m c

/-- Dimension-count check of `torch.Tensor.repeat(*sizes)`: passing fewer
repeat sizes than the tensor has dimensions raises `RuntimeError`
("Number of dimensions of repeat dims can not be smaller than number of
dimensions of tensor"); otherwise the result has `nsizes` dimensions. -/
def repeatDims (tensorDims nsizes : ℕ) : Option ℕ :=
  if tensorDims ≤ nsizes then some nsizes else none

/-- Element-count check of `torch.Tensor.view`: the target shape must
account for exactly the tensor's number of elements, else `RuntimeError`. -/
def viewNumel (numel target : ℕ) : Option ℕ :=
  if numel = target then some target else none

/-- Number of dimensions of `sample_noise` in `DCGAN.py` line 266:
`torch.randn(n_samples, params['nz'], 1, 1)`, and slicing rows keeps all
four dimensions. -/
def dcgan_sample_noise_dims : ℕ := 4

/-- Number of repeat sizes passed by `DCGAN.py` lines 272-273:
`.repeat(col_size, 1)`. -/
def dcgan_repeat_nsizes : ℕ := 2

/-- Number of dimensions of `sample_noise` in
`nlzl16_generative_model.py` line 289:
`torch.randn(params['batch_size'], params['nz'], 1, 1)`. -/
def nlzl_sample_noise_dims : ℕ := 4

/-- Number of repeat sizes passed by `nlzl16_generative_model.py` lines
292-293: `.repeat(col_size, 1, 1, 1)`. -/
def nlzl_repeat_nsizes : ℕ := 4

/-- Grid width of the interpolation block of `DCGAN.py` (line 270):
`col_size = int(np.sqrt(params['batch_size']))` with batch size 128. -/
def dcgan_col_size : ℕ := Nat.sqrt dcgan_batch_size

/-- Batch size configured in `nlzl16_generative_model.py`:
`params['batch_size'] = 64`. -/
def nlzl_batch_size : ℕ := 64

/-- Grid width of the interpolation block of
`nlzl16_generative_model.py` (line 290):
`col_size = int(np.sqrt(params['batch_size']))` with batch size 64. -/
def nlzl_col_size : ℕ := Nat.sqrt nlzl_batch_size

lemma dcgan_col_size_eq : dcgan_col_size = 11 := by
  have h1 : 11 ≤ Nat.sqrt 128 := Nat.le_sqrt.mpr (by norm_num)
  have h2 : Nat.sqrt 128 < 12 := Nat.sqrt_lt.mpr (by norm_num)
  rw [dcgan_col_size, dcgan_batch_size]
  omega

lemma nlzl_col_size_eq : nlzl_col_size = 8 := by
  have h1 : 8 ≤ Nat.sqrt 64 := Nat.le_sqrt.mpr (by norm_num)
  have h2 : Nat.sqrt 64 < 9 := Nat.sqrt_lt.mpr (by norm_num)
  rw [nlzl_col_size, nlzl_batch_size]
  omega

/-- Directory name bound to `real_images_dir` in both scripts. -/
def real_images_dir : String := "real_images"

/-- Directory name bound to `generated_images_dir` in both scripts. -/
def generated_images_dir : String := "generated_images"

/-- Directory name bound to `sample_dir` in `nlzl16_generative_model.py`. -/
def sample_dir : String := "training_images"

/-- Filesystem model for the image directories: an association list from
directory name to its list of files. -/
abbrev FileSys := List (String × List String)

/-- Model of `os.path.exists`. -/
def pathExists : FileSys → String → Bool
  | [], _ => false
  | e :: fs, d => e.1 == d || pathExists fs d

/-- Model of `shutil.rmtree`: remove the directory and its contents. -/
def rmtree : FileSys → String → FileSys
  | [], _ => []
  | e :: fs, d => if e.1 = d then rmtree fs d else e :: rmtree fs d

/-- Model of `os.makedirs`: create the directory, empty. -/
def makedirs (fs : FileSys) (d : String) : FileSys := (d, []) :: fs

/-- The helper `setup_directory` of both scripts (`DCGAN.py` lines
128-131, `nlzl16_generative_model.py` lines 119-122): remove the
directory if it exists, then create it empty. -/
def setup_directory (fs : FileSys) (d : String) : FileSys :=
  makedirs (if pathExists fs d then rmtree fs d else fs) d

/-- The files of directory `d` in the filesystem model. -/
def filesOf : FileSys → String → List String
  | [], _ => []
  | e :: fs, d => if e.1 = d then e.2 else filesOf fs d

/-- All `setup_directory` calls performed by `DCGAN.py` (line 288):
only `generated_images_dir` is set up. -/
def dcganDirSetup (fs : FileSys) : FileSys :=
  setup_directory fs generated_images_dir

/-- All `setup_directory` calls performed by
`nlzl16_generative_model.py` (lines 193-194): `sample_dir`, then
`generated_images_dir`. -/
def nlzlDirSetup (fs : FileSys) : FileSys :=
  setup_directory (setup_directory fs sample_dir) generated_images_dir

@[simp] lemma smulV_smulV (a b : α) (v : Vec α) :
    smulV a (smulV b v) = smulV (a * b) v := by
  funext i; simp [smulV, mul_assoc]

lemma filesOf_rmtree_other (d e : String) (h : ¬ d = e) :
    ∀ fs : FileSys, filesOf (rmtree fs d) e = filesOf fs e := by
  intro fs
  induction fs with
  | nil => rfl
  | cons a t ih =>
    rw [rmtree]
    by_cases ha : a.1 = d
    · rw [if_pos ha, ih, filesOf, if_neg (by rw [ha]; exact h)]
    · rw [if_neg ha, filesOf, filesOf]
      by_cases he : a.1 = e
      · rw [if_pos he, if_pos he]
      · rw [if_neg he, if_neg he, ih]

lemma filesOf_setup_self (fs : FileSys) (d : String) :
    filesOf (setup_directory fs d) d = [] := by
  rw [setup_directory, makedirs, filesOf, if_pos rfl]

lemma filesOf_setup_other (fs : FileSys) (d e : String) (h : ¬ d = e) :
    filesOf (setup_directory fs d) e = filesOf fs e := by
  rw [setup_directory, makedirs, filesOf, if_neg h]
  by_cases hex : pathExists fs d
  · rw [if_pos hex, filesOf_rmtree_other d e h fs]
  · rw [if_neg hex]

/-- C4 (amended): for every valid latent batch, the Generator of
`nlzl16_generative_model.py` outputs tensors with 3 channels of spatial
size 32 × 32, while the Generator of `DCGAN.py` outputs 3 channels of
spatial size 33 × 33 (not 32 × 32: its final `ConvTranspose2d(ngf, nc, 3, 2, 1)`
maps 17 to (17-1)·2 - 2 + 3 = 33); in both, the final `nn.Tanh()` puts
every output element in [-1, 1]. -/
theorem C4_generator_shape_range :
    nlzlGenOut = (3, 32) ∧ dcganGenOut = (3, 33) ∧
    ∀ x : ℝ, -1 ≤ generatorFinalAct x ∧ generatorFinalAct x ≤ 1 :=
  ⟨by decide, by decide, fun x => ⟨neg_one_le_tanh x, tanh_le_one x⟩⟩

/-- Counterexample for C4 as stated: the Generator of `DCGAN.py` does not
produce (3, 32, 32) outputs. -/
theorem C4_counterexample : dcganGenOut ≠ (3, 32) := by decide

/-- C7 (amended): before being consumed, `generated_images_dir` (and, in
`nlzl16_generative_model.py`, `sample_dir`) is recreated empty by
`setup_directory`, but `real_images_dir` is never recreated by either
script: its contents are whatever they were before the run. -/
theorem C7_directory_setup (fs : FileSys) :
    filesOf (dcganDirSetup fs) generated_images_dir = [] ∧
    filesOf (nlzlDirSetup fs) generated_images_dir = [] ∧
    filesOf (nlzlDirSetup fs) sample_dir = [] ∧
    filesOf (dcganDirSetup fs) real_images_dir = filesOf fs real_images_dir ∧
    filesOf (nlzlDirSetup fs) real_images_dir = filesOf fs real_images_dir := by
  refine ⟨filesOf_setup_self _ _, filesOf_setup_self _ _, ?_, ?_, ?_⟩
  · rw [nlzlDirSetup, filesOf_setup_other _ _ _ (by decide)]
    exact filesOf_setup_self _ _
  · exact filesOf_setup_other _ _ _ (by decide)
  · rw [nlzlDirSetup, filesOf_setup_other _ _ _ (by decide),
      filesOf_setup_other _ _ _ (by decide)]

/-- Counterexample for C7 as stated: a stale file in `real_images_dir`
from a previous run survives all directory setup performed by either
script. -/
theorem C7_counterexample :
    filesOf (dcganDirSetup [(real_images_dir, ["stale.png"])]) real_images_dir
        = ["stale.png"] ∧
    filesOf (nlzlDirSetup [(real_images_dir, ["stale.png"])]) real_images_dir
        = ["stale.png"] := by
  constructor <;> rfl

/-- C5 (amended): in `nlzl16_generative_model.py` — whose interpolation
block executes: `repeat` receives as many sizes as `sample_noise` has
dimensions and `view` receives exactly `col_size² = batch_size` elements
— the interpolated latent `lerp_z = (1 - t) * z0 + t * z1` satisfies the
linear interpolation law exactly, every interpolation fraction in the
flattened `t` tensor lies in [0, 1], the rows carrying fraction 0 decode
to `Generator(z0)` and the rows carrying fraction 1 decode to
`Generator(z1)`, for any decoder.  In `DCGAN.py` the interpolation block
raises before `lerp_z` is computed (see the counterexample). -/
theorem C5_interpolation {β : Type} (decode : (ℕ → α) → β) (sample : ℕ → ℕ → α)
    (batch col m m0 m1 : ℕ) (hcol : 2 ≤ col) (hm : m < col * col)
    (hm0 : m0 < col) (hq : m1 / col = col - 1) :
    repeatDims nlzl_sample_noise_dims nlzl_repeat_nsizes = some 4 ∧
    viewNumel (nlzl_col_size * nlzl_col_size) nlzl_batch_size
        = some nlzl_batch_size ∧
    (∀ (m2 c : ℕ), lerpZ sample batch col m2 c =
        (1 - tEntry col m2) * z0row sample col m2 c
          + tEntry col m2 * z1row sample batch col m2 c) ∧
    (0 ≤ (tEntry col m : α) ∧ (tEntry col m : α) ≤ 1) ∧
    tEntry col m0 = (0 : α) ∧
    decode (fun c => lerpZ sample batch col m0 c)
        = decode (fun c => z0row sample col m0 c) ∧
    tEntry col m1 = (1 : α) ∧
    decode (fun c => lerpZ sample batch col m1 c)
        = decode (fun c => z1row sample batch col m1 c) := by
  have hcast : (2 : α) ≤ (col : α) := by exact_mod_cast hcol
  have hden : (0 : α) < (col : α) - 1 := by linarith
  have ht0 : tEntry col m0 = (0 : α) := by
    rw [tEntry, Nat.div_eq_of_lt hm0, linspace01, Nat.cast_zero, zero_div]
  have ht1 : tEntry col m1 = (1 : α) := by
    rw [tEntry, hq, linspace01, Nat.cast_sub (by omega), Nat.cast_one]
    exact div_self (by linarith)
  refine ⟨by decide, by rw [nlzl_col_size_eq]; decide,
    fun m2 c => rfl, ⟨?_, ?_⟩, ht0, ?_, ht1, ?_⟩
  · exact div_nonneg (Nat.cast_nonneg _) (le_of_lt hden)
  · rw [tEntry, linspace01]
    refine (div_le_one hden).mpr ?_
    have hlt : m / col < col := Nat.div_lt_of_lt_mul hm
    have hle : ((m / col : ℕ) : α) ≤ ((col - 1 : ℕ) : α) :=
      Nat.cast_le.mpr (by omega)
    rwa [Nat.cast_sub (by omega), Nat.cast_one] at hle
  · refine congrArg decode (funext fun c => ?_)
    rw [lerpZ, ht0]; ring
  · refine congrArg decode (funext fun c => ?_)
    rw [lerpZ, ht1]; ring

/-- Witness for C5 at the configuration of `nlzl16_generative_model.py`
(`col_size = 8`, `batch_size = 64`), projecting the endpoint facts. -/
theorem C5_interpolation_witness :
    ((2 : ℕ) ≤ 8 ∧ 17 < 8 * 8 ∧ 3 < 8 ∧ 60 / 8 = 8 - 1) ∧
    tEntry 8 3 = (0 : ℚ) ∧ tEntry 8 60 = (1 : ℚ) :=
  ⟨by decide,
   (C5_interpolation (α := ℚ) (β := ℕ → ℚ) id (fun r c => (r : ℚ) + c)
      64 8 17 3 60 (by decide) (by decide) (by decide) (by decide)).2.2.2.2.1,
   (C5_interpolation (α := ℚ) (β := ℕ → ℚ) id (fun r c => (r : ℚ) + c)
      64 8 17 3 60 (by decide) (by decide) (by decide) (by decide)).2.2.2.2.2.2.1⟩

/-- Counterexample for C5 as stated over both scripts: in `DCGAN.py` the
interpolation block raises a `RuntimeError` before `lerp_z` is computed —
lines 272-273 call `.repeat(col_size, 1)` with 2 sizes on 4-dimensional
slices of `sample_noise`, and line 275's `view(batch_size, 1)` would
reshape the `col_size² = 121`-entry fraction tensor to 128 entries — so
no interpolated latent is produced there at all. -/
theorem C5_counterexample :
    repeatDims dcgan_sample_noise_dims dcgan_repeat_nsizes = none ∧
    viewNumel (dcgan_col_size * dcgan_col_size) dcgan_batch_size = none ∧
    dcgan_col_size = 11 := by
  refine ⟨by decide, ?_, dcgan_col_size_eq⟩
  rw [dcgan_col_size_eq]
  decide

/-- C1: during Phase D, the backward pass on the detached fake batch (and
indeed all of Phase D) leaves the Generator's gradient buffer untouched;
during Phase G, the backward pass on the same non-detached fake batch
fills the Generator's gradient buffer with exactly the chain-rule gradient
through the Discriminator's input derivative and the Generator's Jacobian
(nonzero whenever that product is), and Phase G's optimizer step leaves
the Discriminator's parameters exactly where Phase D's step put them,
since only the Generator's optimizer steps in Phase G. -/
theorem C1_detachment (T : Trainer α) (data noise : α) (c : TrainCore α) (i : ℕ)
    (h : T.critDeriv
           (T.D.out (phaseD T data noise c).1.dParams (T.G.out c.gParams noise))
           real_label
         * T.D.jacInput (phaseD T data noise c).1.dParams (T.G.out c.gParams noise)
         * T.G.jac c.gParams noise i ≠ 0) :
    (∀ (v : DVal α) (c0 : TrainCore α) (lab : α),
        (backwardLoss (criterionApply T (discForward T c0.dParams (detach v)) lab) c0).gGrad
          = c0.gGrad) ∧
    (phaseD T data noise c).1.gGrad = c.gGrad ∧
    (coreStep T data noise c).1.gGrad =
      smulV (T.critDeriv
               (T.D.out (phaseD T data noise c).1.dParams (T.G.out c.gParams noise))
               real_label
             * T.D.jacInput (phaseD T data noise c).1.dParams (T.G.out c.gParams noise))
        (T.G.jac c.gParams noise) ∧
    (coreStep T data noise c).1.gGrad i ≠ 0 ∧
    (∀ (fake : DVal α) (c1 : TrainCore α), (phaseG T fake c1).1.dParams = c1.dParams) ∧
    (coreStep T data noise c).1.dParams = (phaseD T data noise c).1.dParams := by
  have hb : (coreStep T data noise c).1.gGrad =
      smulV (T.critDeriv
               (T.D.out (phaseD T data noise c).1.dParams (T.G.out c.gParams noise))
               real_label
             * T.D.jacInput (phaseD T data noise c).1.dParams (T.G.out c.gParams noise))
        (T.G.jac c.gParams noise) := by
    funext j
    simp [coreStep, phaseG, phaseD, optStepG, optStepD, backwardLoss, zeroGradG,
      zeroGradD, criterionApply, discForward, genForward, detach, constT,
      vadd, smulV, vzero]
  refine ⟨?_, ?_, hb, ?_, fun fake c1 => rfl, rfl⟩
  · intro v c0 lab
    funext j
    simp [backwardLoss, criterionApply, discForward, detach, vadd, smulV, vzero]
  · funext j
    simp [phaseD, optStepD, backwardLoss, zeroGradD, criterionApply,
      discForward, genForward, detach, constT, vadd, smulV, vzero]
  · rw [hb]
    simpa [smulV] using h

/-- C2: Phase D performs, in order: zero D's gradients, forward the real
batch, backward the real loss (against the smoothed label 0.9, with no
optimizer step yet), generate a fresh fake batch, forward the detached
fake batch, backward the fake loss (against label 0, accumulating onto
the real gradients), then exactly one Discriminator optimizer step
consuming the summed real+fake gradients; `errD` is recorded as
`errD_real + errD_fake`, both evaluated at the pre-step Discriminator
parameters, and the real batch is seen before the fake batch. -/
theorem C2_phaseD_protocol (T : Trainer α) (data noise : α) (c : TrainCore α) :
    (phaseD T data noise c).2.2.2 =
      [TraceEv.dZeroGrad, TraceEv.dForwardReal, TraceEv.dBackwardReal,
       TraceEv.genForwardNoise, TraceEv.dForwardFakeDetached,
       TraceEv.dBackwardFake, TraceEv.dOptStep] ∧
    ((phaseD T data noise c).2.2.2.indexOf TraceEv.dForwardReal <
      (phaseD T data noise c).2.2.2.indexOf TraceEv.dForwardFakeDetached) ∧
    ((phaseD T data noise c).2.2.2.count TraceEv.dOptStep = 1) ∧
    (phaseD T data noise c).2.2.1 =
      T.crit (T.D.out c.dParams data) real_label +
        T.crit (T.D.out c.dParams (T.G.out c.gParams noise)) fake_label ∧
    (phaseD T data noise c).1.dParams =
      (T.optD c.dParams
        (vadd
          (criterionApply T (discForward T c.dParams (constT data)) real_label).dD
          (criterionApply T
            (discForward T c.dParams (detach (genForward T c.gParams noise)))
            fake_label).dD)
        c.dOptSt).1 ∧
    (phaseD T data noise c).1.dOptSt =
      (T.optD c.dParams
        (vadd
          (criterionApply T (discForward T c.dParams (constT data)) real_label).dD
          (criterionApply T
            (discForward T c.dParams (detach (genForward T c.gParams noise)))
            fake_label).dD)
        c.dOptSt).2 := by
  have htr : (phaseD T data noise c).2.2.2 =
      [TraceEv.dZeroGrad, TraceEv.dForwardReal, TraceEv.dBackwardReal,
       TraceEv.genForwardNoise, TraceEv.dForwardFakeDetached,
       TraceEv.dBackwardFake, TraceEv.dOptStep] := rfl
  refine ⟨htr, ?_, ?_, rfl, ?_, ?_⟩
  · rw [htr]; decide
  · rw [htr]; decide
  · simp only [phaseD, optStepD, backwardLoss, zeroGradD, vzero_vadd]
  · simp only [phaseD, optStepD, backwardLoss, zeroGradD, vzero_vadd]

/-- C3: within each training step, Phase D runs to completion (its
optimizer step included) before Phase G begins: Phase G consumes the core
state as left by Phase D and the very fake batch produced inside Phase D
(generated exactly once, at the pre-step Generator parameters, and never
regenerated); in the step's operation trace the single Discriminator
optimizer step precedes every Phase-G operation, so the two parameter
updates are never interleaved. -/
theorem C3_phase_sequencing (T : Trainer α) (data noise : α) (c : TrainCore α) :
    (coreStep T data noise c).1 =
      (phaseG T (phaseD T data noise c).2.1 (phaseD T data noise c).1).1 ∧
    (phaseD T data noise c).2.1 = genForward T c.gParams noise ∧
    (coreStep T data noise c).2.2.2 =
      (phaseD T data noise c).2.2.2 ++
        (phaseG T (phaseD T data noise c).2.1 (phaseD T data noise c).1).2.2 ∧
    (coreStep T data noise c).2.2.2 =
      [TraceEv.dZeroGrad, TraceEv.dForwardReal, TraceEv.dBackwardReal,
       TraceEv.genForwardNoise, TraceEv.dForwardFakeDetached,
       TraceEv.dBackwardFake, TraceEv.dOptStep, TraceEv.gZeroGrad,
       TraceEv.dForwardFakeAttached, TraceEv.gBackwardLoss, TraceEv.gOptStep] ∧
    ((coreStep T data noise c).2.2.2.count TraceEv.genForwardNoise = 1) ∧
    ((coreStep T data noise c).2.2.2.count TraceEv.dOptStep = 1) ∧
    ((coreStep T data noise c).2.2.2.count TraceEv.gOptStep = 1) ∧
    ((coreStep T data noise c).2.2.2.indexOf TraceEv.dOptStep <
      (coreStep T data noise c).2.2.2.indexOf TraceEv.gZeroGrad) ∧
    ((coreStep T data noise c).2.2.2.indexOf TraceEv.dOptStep <
      (coreStep T data noise c).2.2.2.indexOf TraceEv.gOptStep) := by
  have htr : (coreStep T data noise c).2.2.2 =
      [TraceEv.dZeroGrad, TraceEv.dForwardReal, TraceEv.dBackwardReal,
       TraceEv.genForwardNoise, TraceEv.dForwardFakeDetached,
       TraceEv.dBackwardFake, TraceEv.dOptStep, TraceEv.gZeroGrad,
       TraceEv.dForwardFakeAttached, TraceEv.gBackwardLoss, TraceEv.gOptStep] := rfl
  refine ⟨rfl, rfl, rfl, htr, ?_, ?_, ?_, ?_, ?_⟩ <;> rw [htr] <;> decide

/-- Concrete rational trainer instantiation used by the witnesses: identity
networks with unit Jacobians and identity optimizers. -/
def qTrainer : Trainer ℚ where
  G := ⟨fun _ z => z, fun _ _ => fun _ => 1⟩
  D := ⟨fun _ x => x, fun _ _ => fun _ => 0, fun _ _ => 1⟩
  crit := fun x y => x - y
  critDeriv := fun _ _ => 1
  optG := fun p _ o => (p, o)
  optD := fun p _ o => (p, o)

/-- Concrete zero training core used by the witnesses. -/
def qCore : TrainCore ℚ :=
  ⟨fun _ => 0, fun _ => 0, fun _ => 0, fun _ => 0, fun _ => 0, fun _ => 0, 0, 0⟩

/-- Concrete training state with empty progress lists. -/
def qState : TrainState ℚ := ⟨qCore, [], [], []⟩

/-- Concrete training state with the same core as `qState` but non-empty
progress lists, to exercise the determinism frame property. -/
def qState2 : TrainState ℚ := ⟨qCore, [5], [7], [3]⟩

/-- Concrete run configuration with the budgets of `DCGAN.py`
(50 epochs, a 391-batch loader). -/
def qConfig : TrainConfig ℚ := ⟨qTrainer, fun _ => 0, fun _ => 0, 0, 50, 391, 0⟩

/-- Variant of `qConfig` with a zero epoch budget. -/
def qConfigZeroE : TrainConfig ℚ := { qConfig with nEpochs := 0 }

/-- Variant of `qConfig` with a zero step target. -/
def qConfigZeroT : TrainConfig ℚ := { qConfig with target := 0 }

/-- Variant of `qConfig` with a step target of two. -/
def qConfigT2 : TrainConfig ℚ := { qConfig with target := 2 }

/-- Witness for C1 at the concrete rational instantiation: the chain-rule
product is 1 and the Generator gradient after the step is nonzero. -/
theorem C1_detachment_witness :
    (qTrainer.critDeriv
        (qTrainer.D.out (phaseD qTrainer 0 1 qCore).1.dParams
          (qTrainer.G.out qCore.gParams 1)) real_label
      * qTrainer.D.jacInput (phaseD qTrainer 0 1 qCore).1.dParams
          (qTrainer.G.out qCore.gParams 1)
      * qTrainer.G.jac qCore.gParams 1 0 ≠ 0) ∧
    (coreStep qTrainer 0 1 qCore).1.gGrad 0 ≠ 0 :=
  ⟨by simp [qTrainer], (C1_detachment qTrainer 0 1 qCore 0 (by simp [qTrainer])).2.2.2.1⟩

/-- C6: with a zero training budget (`n_epochs = 0` in `DCGAN.py`,
`params['step'] = 0` in `nlzl16_generative_model.py`) the training loop
does not run, so both networks keep their initial post-weight-init
parameters. -/
theorem C6_zero_budget (cfg cfg2 : TrainConfig α) (hL : 1 ≤ cfg2.loaderLen)
    (st st2 : TrainState α) (hE : cfg.nEpochs = 0) (hT : cfg2.target = 0) :
    (dcganRun cfg st).core.gParams = st.core.gParams ∧
    (dcganRun cfg st).core.dParams = st.core.dParams ∧
    (nlzlRun cfg2 hL st2).core.gParams = st2.core.gParams ∧
    (nlzlRun cfg2 hL st2).core.dParams = st2.core.dParams := by
  have hd : dcganRun cfg st = st := by rw [dcganRun, hE]; rfl
  have hn : nlzlRun cfg2 hL st2 = st2 := by
    rw [nlzlRun, dif_neg (by omega)]
  rw [hd, hn]
  exact ⟨rfl, rfl, rfl, rfl⟩

/-- Witness for C6 at the concrete rational instantiation. -/
theorem C6_zero_budget_witness :
    qConfigZeroE.nEpochs = 0 ∧ qConfigZeroT.target = 0 ∧
    (dcganRun qConfigZeroE qState).core.gParams = qState.core.gParams ∧
    (nlzlRun qConfigZeroT (by decide) qState).core.gParams = qState.core.gParams :=
  ⟨rfl, rfl,
   (C6_zero_budget qConfigZeroE qConfigZeroT (by decide) qState qState rfl rfl).1,
   (C6_zero_budget qConfigZeroE qConfigZeroT (by decide) qState qState rfl rfl).2.2.1⟩

/-- C8: both training loops terminate after exactly their fixed budget —
`n_epochs * 1000` steps in `DCGAN.py` and exactly `params['step']` steps
counted by `iters` in `nlzl16_generative_model.py` — with one loss entry
appended to each of `G_losses` and `D_losses` per step, so both lists end
with exactly budget-many entries. -/
theorem C8_fixed_budget (cfg cfg2 : TrainConfig α) (hL : 1 ≤ cfg2.loaderLen)
    (st st2 : TrainState α) (h1 : st.gLosses = []) (h2 : st.dLosses = [])
    (h3 : st2.gLosses = []) (h4 : st2.dLosses = []) (h5 : st2.core.iters = 0) :
    (dcganRun cfg st).gLosses.length = cfg.nEpochs * 1000 ∧
    (dcganRun cfg st).dLosses.length = cfg.nEpochs * 1000 ∧
    (nlzlRun cfg2 hL st2).core.iters = cfg2.target ∧
    (nlzlRun cfg2 hL st2).gLosses.length = cfg2.target ∧
    (nlzlRun cfg2 hL st2).dLosses.length = cfg2.target := by
  obtain ⟨hcr, hg, hd⟩ := dcganRun_char cfg st
  have hn := nlzlRun_eq_iterate cfg2 hL st2
  rw [h5, Nat.sub_zero] at hn
  refine ⟨?_, ?_, ?_, ?_, ?_⟩
  · rw [hg, h1]; simp
  · rw [hd, h2]; simp
  · rw [hn, iterate_stepState_iters, h5]; omega
  · rw [hn, iterate_stepState_char]; simp [h3]
  · rw [hn, iterate_stepState_char]; simp [h4]

/-- Witness for C8 at the concrete rational instantiation. -/
theorem C8_fixed_budget_witness :
    qState.gLosses = [] ∧ qState.core.iters = 0 ∧
    (nlzlRun qConfigT2 (by decide) qState).core.iters = qConfigT2.target ∧
    (dcganRun qConfig qState).gLosses.length = qConfig.nEpochs * 1000 :=
  ⟨rfl, rfl,
   (C8_fixed_budget qConfig qConfigT2 (by decide) qState qState rfl rfl rfl rfl rfl).2.2.1,
   (C8_fixed_budget qConfig qConfigT2 (by decide) qState qState rfl rfl rfl rfl rfl).1⟩

/-- C9: the training computation is a deterministic function of the
initial core state (parameters, gradient buffers, optimizer moments, RNG
position and step counter) and the data/noise streams: two runs of either
loop from equal cores produce identical appended per-step loss sequences
and identical final cores. -/
theorem C9_determinism (cfg cfg2 : TrainConfig α) (hL : 1 ≤ cfg2.loaderLen)
    (s1 s2 t1 t2 : TrainState α) (hs : s1.core = s2.core) (ht : t1.core = t2.core) :
    (dcganRun cfg s1).gLosses.drop s1.gLosses.length
        = (dcganRun cfg s2).gLosses.drop s2.gLosses.length ∧
    (dcganRun cfg s1).dLosses.drop s1.dLosses.length
        = (dcganRun cfg s2).dLosses.drop s2.dLosses.length ∧
    (dcganRun cfg s1).core = (dcganRun cfg s2).core ∧
    (nlzlRun cfg2 hL t1).gLosses.drop t1.gLosses.length
        = (nlzlRun cfg2 hL t2).gLosses.drop t2.gLosses.length ∧
    (nlzlRun cfg2 hL t1).dLosses.drop t1.dLosses.length
        = (nlzlRun cfg2 hL t2).dLosses.drop t2.dLosses.length ∧
    (nlzlRun cfg2 hL t1).core = (nlzlRun cfg2 hL t2).core := by
  obtain ⟨hc1, hg1, hd1⟩ := dcganRun_char cfg s1
  obtain ⟨hc2, hg2, hd2⟩ := dcganRun_char cfg s2
  have hn1 := nlzlRun_eq_iterate cfg2 hL t1
  have hn2 := nlzlRun_eq_iterate cfg2 hL t2
  refine ⟨?_, ?_, ?_, ?_, ?_, ?_⟩
  · rw [hg1, hg2, hs, List.drop_left, List.drop_left]
  · rw [hd1, hd2, hs, List.drop_left, List.drop_left]
  · rw [hc1, hc2, hs]
  · rw [hn1, hn2, iterate_stepState_char, iterate_stepState_char, ht]
    rw [List.drop_left, List.drop_left]
  · rw [hn1, hn2, iterate_stepState_char, iterate_stepState_char, ht]
    rw [List.drop_left, List.drop_left]
  · rw [hn1, hn2, iterate_stepState_char, iterate_stepState_char, ht]

/-- Witness for C9: two initial states with equal cores but different
pre-existing progress lists. -/
theorem C9_determinism_witness :
    qState.core = qState2.core ∧
    (dcganRun qConfig qState).gLosses.drop qState.gLosses.length
        = (dcganRun qConfig qState2).gLosses.drop qState2.gLosses.length :=
  ⟨rfl,
   (C9_determinism qConfig qConfig (by decide) qState qState2 qState qState2
      rfl rfl).1⟩

/-- C10: with the configuration of `DCGAN.py` (50 epochs, a 391-batch
CIFAR-100 loader), the snapshot branch guarded by
`(epoch + 1 == n_epochs) and (i == len(train_loader) - 1)` fires during
the last epoch, so `img_list` is non-empty when `img_list[-1]` is
evaluated after training; this relies on `len(train_loader) - 1 = 390`
being below the inner loop bound of 1000. -/
theorem C10_imgList_nonempty (cfg : TrainConfig α) (st : TrainState α)
    (hE : cfg.nEpochs = dcgan_n_epochs) (hLen : cfg.loaderLen = dcgan_loader_len) :
    (dcganRun cfg st).imgList ≠ [] ∧ dcgan_loader_len - 1 < 1000 ∧
    dcgan_loader_len = 391 := by
  refine ⟨dcganRun_imgList_ne cfg st ?_ ?_ ?_, by decide, by decide⟩
  · rw [hE]; decide
  · rw [hLen]; decide
  · rw [hLen]; decide

/-- Witness for C10 at the concrete configuration. -/
theorem C10_imgList_nonempty_witness :
    qConfig.nEpochs = dcgan_n_epochs ∧ qConfig.loaderLen = dcgan_loader_len ∧
    (dcganRun qConfig qState).imgList ≠ [] :=
  ⟨by decide, by decide,
   (C10_imgList_nonempty qConfig qState (by decide) (by decide)).1⟩
